import Mathlib

/-!
Verification of the `python-type` runtime type-coercion and validation engine.

The development shallowly embeds the Python source (src/check_type.py and
src/todo.py, which share the coercion code verbatim) into Lean:

* `PyVal` is the universe of runtime values the claims exercise (ints, bools,
  strings, None, lists, tuples, sets, dicts).  CPython `float` is omitted:
  no claim touches floating point.
* `PyAnnot` is the type-descriptor algebra: a bare class (`simple`) or a
  parameterized generic (`generic origin args`), mirroring
  `get_origin`/`get_args`.
* Python exceptions are `PyErr`; fallible code returns `Except PyErr _`.
* Python `dict` objects are insertion-ordered association lists; insertion
  of an existing key (under Python `==`) overwrites the value in place, and
  unhashable keys raise `TypeError`, as in CPython.
* `isinstance` against the bare `typing.Union` special form raises
  `TypeError` (CPython 3.5 - 3.13 behaviour; the source targets 3.9+ via its
  `sys.version_info` guards).

The recursive conversion engine `check_type` is embedded with an explicit
structural fuel so that it is executable by kernel reduction; the fuel
`annotSize target + 1` strictly exceeds the recursion depth (the recursion
of the source descends only into strictly smaller descriptors), and the
lemma `check_typeF_fuel_irrel` shows the result does not depend on the
fuel.
-/

/-- The atomic Python classes appearing in the engine
(`_ULTRA_CONVERSION_CACHE` keys plus `NoneType`; `float` omitted with the
rest of floating point). -/
inductive PyType where
  | int | bool | str | noneType | list | tuple | set | dict
deriving DecidableEq

/-- `SomeClass.__name__`. -/
def typeName : PyType → String
  | .int => "int"
  | .bool => "bool"
  | .str => "str"
  | .noneType => "NoneType"
  | .list => "list"
  | .tuple => "tuple"
  | .set => "set"
  | .dict => "dict"

/-- Python runtime values relevant to the claims.  A `dict` is its
insertion-ordered list of key/value pairs. -/
inductive PyVal where
  | int : Int → PyVal
  | bool : Bool → PyVal
  | str : String → PyVal
  | none : PyVal
  | list : List PyVal → PyVal
  | tuple : List PyVal → PyVal
  | set : List PyVal → PyVal
  | dict : List (PyVal × PyVal) → PyVal

/-- `type(obj)`. -/
def pyTypeOf : PyVal → PyType
  | .int _ => .int
  | .bool _ => .bool
  | .str _ => .str
  | .none => .noneType
  | .list _ => .list
  | .tuple _ => .tuple
  | .set _ => .set
  | .dict _ => .dict

mutual
/-- Python `==` on the modelled values.  `bool` is a subclass of `int`, so
`True == 1`.  Container equality is element-wise.  (Sets and dicts are
unhashable, hence never compared as dict keys, the only place `pyEq` is
used by the engine; their structural treatment here is immaterial.) -/
def pyEq : PyVal → PyVal → Bool
  | .int a, .int b => a == b
  | .int a, .bool b => a == (if b then 1 else 0)
  | .bool a, .int b => (if a then (1 : Int) else 0) == b
  | .bool a, .bool b => a == b
  | .str a, .str b => a == b
  | .none, .none => true
  | .list a, .list b => pyEqList a b
  | .tuple a, .tuple b => pyEqList a b
  | .set a, .set b => pyEqList a b
  | .dict a, .dict b => pyEqPairs a b
  | _, _ => false

def pyEqList : List PyVal → List PyVal → Bool
  | [], [] => true
  | a :: as, b :: bs => pyEq a b && pyEqList as bs
  | _, _ => false

def pyEqPairs : List (PyVal × PyVal) → List (PyVal × PyVal) → Bool
  | [], [] => true
  | (k, v) :: as, (k2, v2) :: bs => pyEq k k2 && pyEq v v2 && pyEqPairs as bs
  | _, _ => false
end

mutual
/-- `hash(v)` succeeds: lists, dicts and sets are unhashable, a tuple is
hashable iff all of its elements are. -/
def pyHashable : PyVal → Bool
  | .list _ => false
  | .dict _ => false
  | .set _ => false
  | .tuple xs => pyHashableList xs
  | _ => true

def pyHashableList : List PyVal → Bool
  | [] => true
  | x :: xs => pyHashable x && pyHashableList xs
end

/-- `bool(v)`: Python truthiness. -/
def pyTruthy : PyVal → Bool
  | .int n => n != 0
  | .bool b => b
  | .str s => s != ""
  | .none => false
  | .list xs => !xs.isEmpty
  | .tuple xs => !xs.isEmpty
  | .set xs => !xs.isEmpty
  | .dict ps => !ps.isEmpty

/-- A single-quote character, kept out of string literals. -/
def sqChar : String := String.singleton (Char.ofNat 39)

/-- Wrap a string in single quotes, as Python `repr` does for `str`. -/
def quoteStr (s : String) : String := sqChar ++ s ++ sqChar

mutual
/-- `repr(v)` (string escaping inside `str` reprs is not modelled; no claim
depends on it). -/
def pyRepr : PyVal → String
  | .int n => toString n
  | .bool b => if b then "True" else "False"
  | .str s => quoteStr s
  | .none => "None"
  | .list xs => "[" ++ pyReprList xs ++ "]"
  | .tuple xs =>
    "(" ++ pyReprList xs ++ (if xs.length == 1 then ",)" else ")")
  | .set xs =>
    if xs.isEmpty then "set()" else "\x7b" ++ pyReprList xs ++ "\x7d"
  | .dict ps => "\x7b" ++ pyReprPairs ps ++ "\x7d"

def pyReprList : List PyVal → String
  | [] => ""
  | [x] => pyRepr x
  | x :: xs => pyRepr x ++ ", " ++ pyReprList xs

def pyReprPairs : List (PyVal × PyVal) → String
  | [] => ""
  | [(k, v)] => pyRepr k ++ ": " ++ pyRepr v
  | (k, v) :: ps => pyRepr k ++ ": " ++ pyRepr v ++ ", " ++ pyReprPairs ps
end

/-- `str(v)`. -/
def pyStrOf : PyVal → String
  | .str s => s
  | v => pyRepr v

/-- The generic origins the source dispatches on in
`_convert_generic_type` / `_validate_complex_types`: `get_origin` yielding
`list`, `tuple`, `set`, `dict` or `typing.Union`. -/
inductive GOrigin where
  | glist | gtuple | gset | gdict | gunion
deriving DecidableEq

/-- A type descriptor: a bare class (`get_origin` is `None`) or a generic
alias with its `get_args` list. -/
inductive PyAnnot where
  | simple : PyType → PyAnnot
  | generic : GOrigin → List PyAnnot → PyAnnot

mutual
/-- Structural size of a descriptor, bounding the recursion depth of the
conversion engine. -/
def annotSize : PyAnnot → Nat
  | .simple _ => 1
  | .generic _ args => 1 + annotSizeList args

def annotSizeList : List PyAnnot → Nat
  | [] => 0
  | a :: as => 1 + annotSize a + annotSizeList as
end

/-- The class of a non-union generic origin. -/
def originClass : GOrigin → Option PyType
  | .glist => some .list
  | .gtuple => some .tuple
  | .gset => some .set
  | .gdict => some .dict
  | .gunion => none

mutual
/-- `getattr(arg, chr(95) * 2 + "name" + chr(95) * 2, str(arg))` as used for
error messages: a class or a builtin generic alias reports its origin name,
a union falls back to its `str`. -/
def annotName : PyAnnot → String
  | .simple t => typeName t
  | .generic .glist _ => "list"
  | .generic .gtuple _ => "tuple"
  | .generic .gset _ => "set"
  | .generic .gdict _ => "dict"
  | .generic .gunion args => "typing.Union[" ++ annotNameList args ++ "]"

def annotNameList : List PyAnnot → String
  | [] => ""
  | [a] => annotName a
  | a :: as => annotName a ++ ", " ++ annotNameList as
end

mutual
/-- `str(target_type)`, used in the `auto_convert=False` error message. -/
def annotDisplay : PyAnnot → String
  | .simple t => "<class " ++ quoteStr (typeName t) ++ ">"
  | .generic .gunion args => "typing.Union[" ++ annotDisplayList args ++ "]"
  | .generic .glist args => "list[" ++ annotDisplayList args ++ "]"
  | .generic .gtuple args => "tuple[" ++ annotDisplayList args ++ "]"
  | .generic .gset args => "set[" ++ annotDisplayList args ++ "]"
  | .generic .gdict args => "dict[" ++ annotDisplayList args ++ "]"

def annotDisplayList : List PyAnnot → String
  | [] => ""
  | [a] => annotDisplay a
  | a :: as => annotDisplay a ++ ", " ++ annotDisplayList as
end

/-- The Python exceptions the engine can raise, each carrying `str(e)`.
`TypeConversionError` subclasses `Exception` only; `ValidationError`
subclasses `ValueError` (src/todo.py line 619). -/
inductive PyErr where
  | typeConversionError : String → PyErr
  | valueError : String → PyErr
  | typeError : String → PyErr
  | validationError : String → PyErr

/-- `str(e)`. -/
def errMessage : PyErr → String
  | .typeConversionError m => m
  | .valueError m => m
  | .typeError m => m
  | .validationError m => m

/-- Whether `except (ValueError, TypeError, AttributeError)` catches the
error.  `ValidationError` subclasses `ValueError`, so it is caught;
`TypeConversionError` subclasses `Exception` directly, so it is not. -/
def isCaughtByVTA : PyErr → Bool
  | .typeConversionError _ => false
  | .valueError _ => true
  | .typeError _ => true
  | .validationError _ => true

/-- The exception class name of an outcome (`"ok"` for a normal return), for
stating which exception type escapes a call. -/
def errClass : Except PyErr α → String
  | .ok _ => "ok"
  | .error (.typeConversionError _) => "TypeConversionError"
  | .error (.valueError _) => "ValueError"
  | .error (.typeError _) => "TypeError"
  | .error (.validationError _) => "ValidationError"

/-! ## The `convert` function (src/check_type.py lines 9-30)

Every call site in the source passes `dict` as the target (the
`_ULTRA_CONVERSION_CACHE` entry for `dict`, line 94, and the generic dict
branch, line 51), so only the `target_type is dict` branch of `convert` is
embedded.  The function returns the pair list of the built dict. -/

/-- `isinstance(p, (list, tuple)) and len(p) == 2`. -/
def isPair : PyVal → Bool
  | .list l => l.length == 2
  | .tuple l => l.length == 2
  | _ => false

/-- Extract the two components of a pair element (only applied to values
satisfying `isPair`). -/
def toPair : PyVal → PyVal × PyVal
  | .list (k :: v :: _) => (k, v)
  | .tuple (k :: v :: _) => (k, v)
  | v => (v, v)

mutual
/-- `obj[::2]`: the elements at even indices. -/
def seqEvens : List PyVal → List PyVal
  | [] => []
  | x :: xs => x :: seqOdds xs

/-- `obj[1::2]`: the elements at odd indices. -/
def seqOdds : List PyVal → List PyVal
  | [] => []
  | _ :: xs => seqEvens xs
end

/-- `TypeError: unhashable type: the name of the type`. -/
def unhashableMsg (v : PyVal) : String :=
  "unhashable type: " ++ quoteStr (typeName (pyTypeOf v))

/-- CPython dict insertion: an existing key (under `==`) has its value
overwritten in place, a fresh key is appended. -/
def dictInsert (d : List (PyVal × PyVal)) (k v : PyVal) : List (PyVal × PyVal) :=
  if d.any (fun p => pyEq p.1 k) then
    d.map (fun p => if pyEq p.1 k then (p.1, v) else p)
  else d ++ [(k, v)]

/-- Build a dict from a pair sequence (`dict(iterable_of_pairs)`); an
unhashable key raises `TypeError`. -/
def dictFromPairs (acc : List (PyVal × PyVal)) :
    List (PyVal × PyVal) → Except PyErr (List (PyVal × PyVal))
  | [] => .ok acc
  | (k, v) :: rest =>
    if pyHashable k then dictFromPairs (dictInsert acc k v) rest
    else .error (.typeError (unhashableMsg k))

/-- The `ValueError` message of `convert` (line 25). -/
def convertDictFailMsg (obj : PyVal) : String :=
  "Cannot convert " ++ typeName (pyTypeOf obj) ++ " to dict"

/-- `convert(obj, dict)` (src/check_type.py lines 19-25): pairs-of-two rule
first, then the even-length alternating rule, otherwise `ValueError`; the
empty sequence is falsy and also raises. -/
def convert_to_dict (obj : PyVal) : Except PyErr (List (PyVal × PyVal)) :=
  let xsOpt : Option (List PyVal) :=
    match obj with
    | .list xs => some xs
    | .tuple xs => some xs
    | _ => none
  match xsOpt with
  | some xs =>
    if !xs.isEmpty then
      if xs.all isPair then dictFromPairs [] (xs.map toPair)
      else if xs.length % 2 == 0 then
        dictFromPairs [] ((seqEvens xs).zip (seqOdds xs))
      else .error (.valueError (convertDictFailMsg obj))
    else .error (.valueError (convertDictFailMsg obj))
  | none => .error (.valueError (convertDictFailMsg obj))

/-! ## `_ULTRA_CONVERSION_CACHE` and `_convert_simple_type`
(src/check_type.py lines 71-95) -/

/-- `isinstance(obj, Iterable)` for the modelled universe. -/
def pyIterable : PyVal → Bool
  | .list _ => true
  | .tuple _ => true
  | .set _ => true
  | .dict _ => true
  | .str _ => true
  | _ => false

/-- Iterating a value: a dict yields its keys.  (Strings are never iterated
by the engine: every call site first filters them out.) -/
def pyElems : PyVal → List PyVal
  | .list xs => xs
  | .tuple xs => xs
  | .set xs => xs
  | .dict ps => ps.map Prod.fst
  | _ => []

/-- Accumulate a decimal digit string. -/
def digitsVal (acc : Nat) : List Char → Option Nat
  | [] => some acc
  | c :: cs => if c.isDigit then digitsVal (acc * 10 + (c.toNat - 48)) cs else Option.none

/-- `int(string)` parsing: an optional sign followed by at least one
decimal digit (Python also strips whitespace and permits underscores;
those refinements are immaterial to the claims). -/
def pyStrToInt? (s : String) : Option Int :=
  match s.data with
  | [] => Option.none
  | c :: cs =>
    if c == Char.ofNat 45 then
      match cs with
      | [] => Option.none
      | _ => (digitsVal 0 cs).map (fun n => -(n : Int))
    else if c == Char.ofNat 43 then
      match cs with
      | [] => Option.none
      | _ => (digitsVal 0 cs).map (fun n => (n : Int))
    else (digitsVal 0 (c :: cs)).map (fun n => (n : Int))

/-- `int(obj)`. -/
def int_ctor : PyVal → Except PyErr PyVal
  | .int n => .ok (.int n)
  | .bool b => .ok (.int (if b then 1 else 0))
  | .str s =>
    match pyStrToInt? s with
    | some n => .ok (.int n)
    | Option.none =>
      .error (.valueError ("invalid literal for int() with base 10: " ++ quoteStr s))
  | v =>
    .error (.typeError ("int() argument must be a string, a bytes-like object or a real number, not " ++ quoteStr (typeName (pyTypeOf v))))

/-- The cache entry for `list`: `obj if isinstance(obj, list) else [obj]`. -/
def list_cache : PyVal → Except PyErr PyVal
  | .list xs => .ok (.list xs)
  | v => .ok (.list [v])

/-- The cache entry for `tuple`. -/
def tuple_cache : PyVal → Except PyErr PyVal
  | .tuple xs => .ok (.tuple xs)
  | v =>
    if !pyIterable v || pyTypeOf v == .str then .ok (.tuple [v])
    else .ok (.tuple (pyElems v))

/-- The cache entry for `set`: `obj if isinstance(obj, set) else set([obj])`;
the singleton set hashes its element. -/
def set_cache : PyVal → Except PyErr PyVal
  | .set xs => .ok (.set xs)
  | v => if pyHashable v then .ok (.set [v]) else .error (.typeError (unhashableMsg v))

/-- `_ULTRA_CONVERSION_CACHE` (src/check_type.py lines 86-95); the `float`
entry is omitted with the rest of floating point, and `NoneType` is the one
modelled class with no entry. -/
def _ULTRA_CONVERSION_CACHE (t : PyType) : Option (PyVal → Except PyErr PyVal) :=
  match t with
  | .int => some int_ctor
  | .str => some (fun v => .ok (.str (pyStrOf v)))
  | .bool => some (fun v => .ok (.bool (pyTruthy v)))
  | .list => some list_cache
  | .tuple => some tuple_cache
  | .set => some set_cache
  | .dict => some (fun v => (convert_to_dict v).map PyVal.dict)
  | .noneType => Option.none

/-- The wrapped `TypeConversionError` message of `_convert_simple_type`. -/
def simpleConvFailMsg (obj : PyVal) (t : PyType) (cause : String) : String :=
  "Cannot convert " ++ typeName (pyTypeOf obj) ++ " to " ++ typeName t ++ ": " ++ cause

/-- `_convert_simple_type(obj, target_type)` (src/check_type.py lines
71-84): run the cached converter (or the bare constructor when the class is
not cached — here only `NoneType`, whose constructor rejects an argument),
wrapping `ValueError`/`TypeError`/`AttributeError` into
`TypeConversionError`. -/
def _convert_simple_type (obj : PyVal) (t : PyType) : Except PyErr PyVal :=
  let r : Except PyErr PyVal :=
    match _ULTRA_CONVERSION_CACHE t with
    | some converter => converter obj
    | Option.none => .error (.typeError "NoneType takes no arguments")
  match r with
  | .ok v => .ok v
  | .error e =>
    if isCaughtByVTA e then
      .error (.typeConversionError (simpleConvFailMsg obj t (errMessage e)))
    else .error e

/-! ## `check_type` and `_convert_generic_type`
(src/check_type.py lines 32-69 and 97-108)

The mutual recursion of the source descends only into strictly smaller
descriptors, so it is embedded with an explicit fuel that decreases on every
nested conversion; `check_type` supplies `sizeOf target + 1`, which the
fuel-irrelevance lemma below shows is always enough. -/

/-- One iteration shape of the element loop
`[check_type(item, args[0], auto_convert=True) for item in obj]`,
parameterized by the recursive call. -/
def convertItemsWith (check : PyVal → Except PyErr PyVal) :
    List PyVal → Except PyErr (List PyVal)
  | [] => .ok []
  | x :: xs =>
    match check x with
    | .error e => .error e
    | .ok y =>
      match convertItemsWith check xs with
      | .error e => .error e
      | .ok ys => .ok (y :: ys)

/-- The union loop of `_convert_generic_type` (lines 57-62): try each
alternative, `continue` exactly on `TypeConversionError`, propagate any
other exception, report `none` when every alternative was exhausted. -/
def unionLoopWith (check : PyAnnot → Except PyErr PyVal) :
    List PyAnnot → Except PyErr (Option PyVal)
  | [] => .ok Option.none
  | a :: rest =>
    match check a with
    | .ok v => .ok (some v)
    | .error (.typeConversionError _) => unionLoopWith check rest
    | .error e => .error e

/-- The dict comprehension of `_convert_generic_type` (line 54): convert
each key and value, inserting with CPython dict semantics (an unhashable
converted key raises `TypeError`). -/
def dictConvWith (ck cv : PyVal → Except PyErr PyVal) (acc : List (PyVal × PyVal)) :
    List (PyVal × PyVal) → Except PyErr (List (PyVal × PyVal))
  | [] => .ok acc
  | (k, v) :: rest =>
    match ck k with
    | .error e => .error e
    | .ok k2 =>
      match cv v with
      | .error e => .error e
      | .ok v2 =>
        if pyHashable k2 then dictConvWith ck cv (dictInsert acc k2 v2) rest
        else .error (.typeError (unhashableMsg k2))

/-- `set(converted_items)`: deduplicate under Python `==` keeping the first
occurrence, hashing every element. -/
def setFromList (acc : List PyVal) : List PyVal → Except PyErr PyVal
  | [] => .ok (.set acc)
  | x :: xs =>
    if pyHashable x then
      setFromList (if acc.any (fun y => pyEq y x) then acc else acc ++ [x]) xs
    else .error (.typeError (unhashableMsg x))

/-- `origin(converted_items)` for the `list`/`tuple`/`set` branch (line 48).
The other origins never reach this call. -/
def originCollect : GOrigin → List PyVal → Except PyErr PyVal
  | .glist, ys => .ok (.list ys)
  | .gtuple, ys => .ok (.tuple ys)
  | .gset, ys => setFromList [] ys
  | _, _ => .error (.typeError "unreachable origin")

/-- The normalization at lines 42-43: a non-iterable (or a string) is
wrapped as `[obj]` before element conversion; otherwise the value is
iterated. -/
def coercionItems (obj : PyVal) : List PyVal :=
  if !pyIterable obj || pyTypeOf obj == .str then [obj] else pyElems obj

/-- `repr` of a list of strings, as Python renders `type_names` inside the
union failure message. -/
def quotedJoin : List String → String
  | [] => ""
  | [s] => quoteStr s
  | s :: rest => quoteStr s ++ ", " ++ quotedJoin rest

/-- `str(list_of_names)`. -/
def pyStrListRepr (l : List String) : String := "[" ++ quotedJoin l ++ "]"

/-- The `TypeConversionError` message raised when every union alternative
fails (line 64): it names every attempted target type. -/
def unionFailMsg (obj : PyVal) (alts : List PyAnnot) : String :=
  "Cannot convert " ++ typeName (pyTypeOf obj) ++ " to any of "
    ++ pyStrListRepr (alts.map annotName)

/-- The `TypeConversionError` message of the `auto_convert = False`
branch of `check_type` (line 105). -/
def notAutoConvertMsg (obj : PyVal) (target : PyAnnot) : String :=
  "Object is " ++ typeName (pyTypeOf obj) ++ ", expected " ++ annotDisplay target

/-- Fuelled embedding of `check_type` (src/check_type.py lines 97-108)
fused with `_convert_generic_type` (lines 32-69), which `check_type` invokes
exactly when the target is a generic alias.  Branches, in source order:

* identity fast path `type(obj) is target_type` (only a bare class can be
  `is`-identical to `type(obj)`);
* `auto_convert = False` rejection;
* generic targets: `list`/`tuple`/`set` element conversion against
  `args[0]` with `origin(converted_items)` (no arity check for tuples);
  `dict` via `convert(obj, dict)` — whose `ValueError` propagates unwrapped
  — then the key/value comprehension when exactly two args are present;
  `Union` via the first-success loop, a final `TypeConversionError` naming
  every alternative;
* bare classes: `_convert_simple_type`. -/
def check_typeF : Nat → PyVal → PyAnnot → Bool → Except PyErr PyVal
  | 0, _, _, _ => .error (.typeConversionError "maximum recursion depth exceeded")
  | fuel + 1, obj, target, auto_convert =>
    match target with
    | .simple t =>
      if pyTypeOf obj == t then .ok obj
      else if !auto_convert then .error (.typeConversionError (notAutoConvertMsg obj target))
      else _convert_simple_type obj t
    | .generic origin args =>
      if !auto_convert then .error (.typeConversionError (notAutoConvertMsg obj target))
      else
        match origin with
        | .glist | .gtuple | .gset =>
          let items := coercionItems obj
          let converted : Except PyErr (List PyVal) :=
            match args with
            | [] => .ok items
            | a0 :: _ => convertItemsWith (fun item => check_typeF fuel item a0 true) items
          match converted with
          | .ok ys => originCollect origin ys
          | .error e => .error e
        | .gdict =>
          let pairsE : Except PyErr (List (PyVal × PyVal)) :=
            match obj with
            | .dict ps => .ok ps
            | _ => convert_to_dict obj
          match pairsE with
          | .error e => .error e
          | .ok ps =>
            match args with
            | [kt, vt] =>
              match dictConvWith (fun k => check_typeF fuel k kt true)
                  (fun v => check_typeF fuel v vt true) [] ps with
              | .ok qs => .ok (.dict qs)
              | .error e => .error e
            | _ => .ok (.dict ps)
        | .gunion =>
          match unionLoopWith (fun alt => check_typeF fuel obj alt true) args with
          | .ok (some v) => .ok v
          | .ok Option.none => .error (.typeConversionError (unionFailMsg obj args))
          | .error e => .error e

/-- `check_type(obj, target_type, auto_convert)`. -/
def check_type (obj : PyVal) (target : PyAnnot) (auto_convert : Bool) : Except PyErr PyVal :=
  check_typeF (annotSize target + 1) obj target auto_convert

/-! ## The structural validator `_validate_complex_types`
(src/todo.py lines 704-736) -/

/-- `isinstance(v, cls)` for a bare class: nominal match or subclass; in the
modelled universe the only proper subclass relation is `bool <: int`. -/
def pyIsinstance (v : PyVal) (t : PyType) : Bool :=
  pyTypeOf v == t || (pyTypeOf v == .bool && t == .int)

/-- `isinstance(item, a)` where `a` is an arbitrary descriptor, as invoked
by the element checks of `_validate_complex_types`: a bare class behaves
normally, an unsubscripted builtin alias falls back to its origin class, and
a subscripted generic or the `typing.Union` special form raises `TypeError`
(CPython refuses both as the second argument of `isinstance`). -/
def isinstancePy (v : PyVal) (a : PyAnnot) : Except PyErr Bool :=
  match a with
  | .simple t => .ok (pyIsinstance v t)
  | .generic .gunion _ => .error (.typeError "typing.Union cannot be used with isinstance()")
  | .generic o [] =>
    match originClass o with
    | some t => .ok (pyIsinstance v t)
    | Option.none => .error (.typeError "typing.Union cannot be used with isinstance()")
  | .generic _ (_ :: _) =>
    .error (.typeError "isinstance() argument 2 cannot be a parameterized generic")

/-- The elements of a container value (used after an `isinstance` guard has
established the container shape). -/
def listElems : PyVal → List PyVal
  | .list xs => xs
  | .tuple xs => xs
  | .set xs => xs
  | _ => []

/-- The items of a dict value. -/
def dictPairsOf : PyVal → List (PyVal × PyVal)
  | .dict ps => ps
  | _ => []

/-- `all(isinstance(item, a) for item in xs)`: short-circuits on the first
non-match, propagates an `isinstance` exception. -/
def allIsinstanceM (a : PyAnnot) : List PyVal → Except PyErr Bool
  | [] => .ok true
  | x :: xs =>
    match isinstancePy x a with
    | .error e => .error e
    | .ok true => allIsinstanceM a xs
    | .ok false => .ok false

/-- `all(isinstance(k, kt) and isinstance(v, vt) for k, v in ps)` with
Python `and` short-circuiting. -/
def allKVIsinstanceM (kt vt : PyAnnot) : List (PyVal × PyVal) → Except PyErr Bool
  | [] => .ok true
  | (k, v) :: ps =>
    match isinstancePy k kt with
    | .error e => .error e
    | .ok false => .ok false
    | .ok true =>
      match isinstancePy v vt with
      | .error e => .error e
      | .ok false => .ok false
      | .ok true => allKVIsinstanceM kt vt ps

/-- `all(isinstance(val, a) for val, a in zip(vals, args))`. -/
def zipAllIsinstanceM : List PyVal → List PyAnnot → Except PyErr Bool
  | x :: xs, a :: as =>
    match isinstancePy x a with
    | .error e => .error e
    | .ok false => .ok false
    | .ok true => zipAllIsinstanceM xs as
  | _, _ => .ok true

/-- `_validate_complex_types(arg_value, expected_types)` (src/todo.py lines
704-736).  For each descriptor in order: a bare class is an `isinstance`
check; otherwise the guard `isinstance(arg_value, origin)` at line 713 runs
first — for a `typing.Union` descriptor this guard itself raises
`TypeError`, so the dedicated `origin is Union` branch at line 730 is
unreachable — and on a shape match the parameterized element checks run,
falling through to the next descriptor when they fail; a parameterized
origin with no (or an unexpected number of) arguments accepts on shape
alone via the final `else`. -/
def _validate_complex_types (arg_value : PyVal) : List PyAnnot → Except PyErr Bool
  | [] => .ok false
  | expected :: rest =>
    match expected with
    | .simple t =>
      if pyIsinstance arg_value t then .ok true
      else _validate_complex_types arg_value rest
    | .generic .gunion _ =>
      .error (.typeError "typing.Union cannot be used with isinstance()")
    | .generic .glist args =>
      if !pyIsinstance arg_value PyType.list then _validate_complex_types arg_value rest
      else
        match args with
        | a0 :: _ =>
          match allIsinstanceM a0 (listElems arg_value) with
          | .error e => .error e
          | .ok true => .ok true
          | .ok false => _validate_complex_types arg_value rest
        | [] => .ok true
    | .generic .gdict args =>
      if !pyIsinstance arg_value PyType.dict then _validate_complex_types arg_value rest
      else
        match args with
        | [kt, vt] =>
          match allKVIsinstanceM kt vt (dictPairsOf arg_value) with
          | .error e => .error e
          | .ok true => .ok true
          | .ok false => _validate_complex_types arg_value rest
        | _ => .ok true
    | .generic .gtuple args =>
      if !pyIsinstance arg_value PyType.tuple then _validate_complex_types arg_value rest
      else
        match args with
        | a0 :: as =>
          if (listElems arg_value).length == (a0 :: as).length then
            match zipAllIsinstanceM (listElems arg_value) (a0 :: as) with
            | .error e => .error e
            | .ok true => .ok true
            | .ok false => _validate_complex_types arg_value rest
          else _validate_complex_types arg_value rest
        | [] => .ok true
    | .generic .gset args =>
      if !pyIsinstance arg_value PyType.set then _validate_complex_types arg_value rest
      else
        match args with
        | a0 :: _ =>
          match allIsinstanceM a0 (listElems arg_value) with
          | .error e => .error e
          | .ok true => .ok true
          | .ok false => _validate_complex_types arg_value rest
        | [] => .ok true

/-! ## The signature validation wrapper `validate_data`
(src/todo.py lines 442-736) -/

/-- One declared parameter of a callable: its name, its annotation
(`Option.none` models `inspect.Parameter.empty`) and its default value. -/
structure PyParam where
  name : String
  annot : Option PyAnnot
  default : Option PyVal

/-- A Python callable as the wrapper sees it: name, signature, return
annotation, coroutine flag, and the body as a function of the bound
arguments.  The sync and async wrappers run identical validation around the
call (src/todo.py lines 459-476), so one embedding covers both. -/
structure PyFunc where
  funcName : String
  params : List PyParam
  retAnnot : Option PyAnnot
  isAsync : Bool
  body : List (String × PyVal) → PyVal

/-- A value of `custom_types` / `**types_override`: either a single
descriptor or an explicit list/tuple of alternatives. -/
inductive TypesSpec where
  | one : PyAnnot → TypesSpec
  | many : List PyAnnot → TypesSpec

/-- `_normalize_types` (src/todo.py lines 622-626). -/
def _normalize_types : TypesSpec → List PyAnnot
  | .many l => l
  | .one a => [a]

/-- The configuration captured by the `validate_data(...)` decorator call. -/
structure ValidateDataConfig where
  strict : Bool
  validate_return : Bool
  custom_types : Option (List (String × TypesSpec))
  types_override : List (String × TypesSpec)

/-- `_extract_types_from_annot` embeds `_extract_types_from_annotation`
(src/todo.py lines 627-639): no annotation yields nothing, a union yields
its argument tuple, any other generic yields the bare origin class, a bare
class yields itself.  (The second `origin is Union` test at line 635 is dead
code after the first.) -/
def _extract_types_from_annot : Option PyAnnot → Option (List PyAnnot)
  | Option.none => Option.none
  | some (.generic .gunion args) => some args
  | some (.generic .glist _) => some [.simple .list]
  | some (.generic .gtuple _) => some [.simple .tuple]
  | some (.generic .gset _) => some [.simple .set]
  | some (.generic .gdict _) => some [.simple .dict]
  | some (.simple t) => some [.simple t]

/-- Association-list lookup (Python dict read). -/
def assocFind (m : List (String × α)) (k : String) : Option α :=
  (m.find? (fun kv => kv.1 == k)).map Prod.snd

/-- Association-list membership (Python `in` on a dict). -/
def assocHas (m : List (String × α)) (k : String) : Bool :=
  m.any (fun kv => kv.1 == k)

/-- Association-list write (Python dict assignment: overwrite or append). -/
def assocUpsert (m : List (String × α)) (k : String) (v : α) : List (String × α) :=
  if assocHas m k then m.map (fun kv => if kv.1 == k then (k, v) else kv)
  else m ++ [(k, v)]

/-- Deduplicate a key list (Python `set(...)`); the result is only ever
consumed sorted, so the retained order is immaterial. -/
def dedupStr : List String → List String
  | [] => []
  | x :: xs =>
    if (dedupStr xs).contains x then dedupStr xs else x :: dedupStr xs

/-- Byte-wise comparison of strings (the order `sorted` uses on ASCII
parameter names). -/
def strDataLe : List Char → List Char → Bool
  | [], _ => true
  | _ :: _, [] => false
  | a :: as, b :: bs =>
    if a.toNat < b.toNat then true
    else if b.toNat < a.toNat then false
    else strDataLe as bs

/-- Insertion into a sorted string list. -/
def insertSorted (s : String) : List String → List String
  | [] => [s]
  | x :: xs => if strDataLe s.data x.data then s :: x :: xs else x :: insertSorted s xs

/-- `sorted(...)` on strings. -/
def sortStrings (l : List String) : List String := l.foldr insertSorted []

/-- A line of 70 equal signs, as the error-message banners use. -/
def eqBar : String := String.mk (List.replicate 70 (Char.ofNat 61))

/-- The `DECORATOR CONFIGURATION ERROR` message of
`_validate_override_parameters` (src/todo.py lines 672-681). -/
def overrideConfigMsg (func_name : String) (non_existent available : List String) : String :=
  "\n" ++ eqBar ++ "\n"
    ++ "DECORATOR CONFIGURATION ERROR\n"
    ++ eqBar ++ "\n"
    ++ "Function: " ++ func_name ++ "()\n"
    ++ "Non-existent parameters in override: " ++ pyStrListRepr non_existent ++ "\n"
    ++ "Available parameters in function: " ++ pyStrListRepr available ++ "\n"
    ++ eqBar ++ "\n"
    ++ "Parameters specified in @validate_data() decorator must\n"
    ++ "correspond exactly with the function parameters.\n"
    ++ eqBar

/-- `_validate_override_parameters(sig, types_override, func_name)`
(src/todo.py lines 662-682): every override key must name a real parameter
(`self`/`cls` excluded); offenders raise `ValueError`.  This runs inside
`_validate_parameters`, i.e. on every invocation — not at wrap time. -/
def _validate_override_parameters (params : List PyParam)
    (types_override : List (String × TypesSpec)) (func_name : String) : Except PyErr Unit :=
  let param_names := (params.map (fun p => p.name)).filter (fun n => n != "self" && n != "cls")
  let override_parameters := dedupStr (types_override.map Prod.fst)
  let non_existent := override_parameters.filter (fun k => !param_names.contains k)
  if non_existent.isEmpty then .ok ()
  else .error (.valueError (overrideConfigMsg func_name (sortStrings non_existent)
    (sortStrings (dedupStr param_names))))

/-- The `ValueError` produced for a configuration with a bad override key,
restated as a function of the configuration (the exact value
`_validate_override_parameters` raises). -/
def overrideMsgOf (func : PyFunc) (cfg : ValidateDataConfig) : String :=
  let param_names := (func.params.map (fun p => p.name)).filter (fun n => n != "self" && n != "cls")
  let non_existent := (dedupStr (cfg.types_override.map Prod.fst)).filter
    (fun k => !param_names.contains k)
  overrideConfigMsg func.funcName (sortStrings non_existent) (sortStrings (dedupStr param_names))

/-- `inspect.Signature.bind`: positional arguments fill parameters in
order, keyword arguments fill the rest; too many positionals, a parameter
given both ways, an unknown keyword, or a missing required parameter raise
`TypeError`. -/
def sigBind : List PyParam → List PyVal → List (String × PyVal) → Except PyErr (List (String × PyVal))
  | [], [], kwargs =>
    if kwargs.isEmpty then .ok []
    else .error (.typeError ("got an unexpected keyword argument "
      ++ quoteStr (kwargs.headD ("", PyVal.none)).1))
  | [], _ :: _, _ => .error (.typeError "too many positional arguments")
  | p :: ps, a :: rest, kwargs =>
    if assocHas kwargs p.name then
      .error (.typeError ("multiple values for argument " ++ quoteStr p.name))
    else
      match sigBind ps rest kwargs with
      | .ok b => .ok ((p.name, a) :: b)
      | .error e => .error e
  | p :: ps, [], kwargs =>
    match assocFind kwargs p.name with
    | some v =>
      match sigBind ps [] (kwargs.filter (fun kv => kv.1 != p.name)) with
      | .ok b => .ok ((p.name, v) :: b)
      | .error e => .error e
    | Option.none =>
      if p.default.isSome then sigBind ps [] kwargs
      else .error (.typeError ("missing a required argument: " ++ quoteStr p.name))

/-- `bound_args.apply_defaults()`: the bound arguments in signature order
with declared defaults filled in for unsupplied parameters. -/
def apply_defaults (params : List PyParam) (bound : List (String × PyVal)) :
    List (String × PyVal) :=
  params.filterMap (fun p =>
    match assocFind bound p.name with
    | some v => some (p.name, v)
    | Option.none => p.default.map (fun d => (p.name, d)))

/-- `sig.bind(*args, **kwargs)` followed by `apply_defaults`. -/
def sigBindApplyDefaults (params : List PyParam) (args : List PyVal)
    (kwargs : List (String × PyVal)) : Except PyErr (List (String × PyVal)) :=
  match sigBind params args kwargs with
  | .ok b => .ok (apply_defaults params b)
  | .error e => .error e

/-- The `types_to_validate` table (src/todo.py lines 508-527): annotations
(under `strict`), overwritten by `custom_types`, overwritten by
`types_override`. -/
def buildTypesToValidate (cfg : ValidateDataConfig) (params : List PyParam) :
    List (String × List PyAnnot) :=
  let fromHints :=
    if cfg.strict then
      params.foldl (fun acc p =>
        if p.name == "self" || p.name == "cls" then acc
        else
          match _extract_types_from_annot p.annot with
          | some ts => if ts.isEmpty then acc else assocUpsert acc p.name ts
          | Option.none => acc) []
    else []
  let withCustom :=
    match cfg.custom_types with
    | some cts => cts.foldl (fun acc kv => assocUpsert acc kv.1 (_normalize_types kv.2)) fromHints
    | Option.none => fromHints
  cfg.types_override.foldl (fun acc kv => assocUpsert acc kv.1 (_normalize_types kv.2)) withCustom

/-- Join strings with a separator. -/
def strJoin (sep : String) : List String → String
  | [] => ""
  | [s] => s
  | s :: rest => s ++ sep ++ strJoin sep rest

/-- `_create_object_detail(arg, received_type)` (src/todo.py lines
640-661); modelled builtin values have no instance dict, so the
`hasattr(arg, ...)` branch is skipped. -/
def _create_object_detail (arg : PyVal) : String :=
  let tn := typeName (pyTypeOf arg)
  match arg with
  | .list xs =>
    if xs.length ≤ 5 then tn ++ "(" ++ pyRepr (.list xs) ++ ")"
    else tn ++ "([" ++ strJoin ", " ((xs.take 3).map pyStrOf) ++ ", ...]) with "
      ++ toString xs.length ++ " elements"
  | .tuple xs =>
    if xs.length ≤ 5 then tn ++ "(" ++ pyRepr (.list xs) ++ ")"
    else tn ++ "([" ++ strJoin ", " ((xs.take 3).map pyStrOf) ++ ", ...]) with "
      ++ toString xs.length ++ " elements"
  | .set xs =>
    if xs.length ≤ 5 then tn ++ "(" ++ pyRepr (.list xs) ++ ")"
    else tn ++ "([" ++ strJoin ", " ((xs.take 3).map pyStrOf) ++ ", ...]) with "
      ++ toString xs.length ++ " elements"
  | .dict ps =>
    if ps.length ≤ 3 then tn ++ "(" ++ pyRepr (.dict ps) ++ ")"
    else tn ++ "(" ++ pyRepr (.dict (ps.take 3)) ++ "...) with "
      ++ toString ps.length ++ " elements"
  | .str s =>
    if s.length ≤ 50 then tn ++ "(" ++ quoteStr s ++ ")"
    else tn ++ "(" ++ sqChar ++ (s.take 47) ++ "..." ++ sqChar ++ ") with "
      ++ toString s.length ++ " characters"
  | v => tn ++ "(" ++ pyRepr v ++ ")"

/-- One accumulated validation failure (the `error_info` dict built at
src/todo.py lines 563-571). -/
structure ErrorInfo where
  errKind : String
  name : String
  position : Option Nat
  expected_type : String
  received_type : String
  object_detail : String
  type_source : String

/-- The `type_source` tag (src/todo.py lines 556-561): `types_override`
wins, then a truthy `custom_types`, then the annotation. -/
def typeSourceOf (cfg : ValidateDataConfig) (pname : String) : String :=
  if assocHas cfg.types_override pname then "override"
  else
    match cfg.custom_types with
    | some cts => if !cts.isEmpty && assocHas cts pname then "custom_types" else "type hint"
    | Option.none => "type hint"

/-- Build the `error_info` record for one failing parameter. -/
def mkErrorInfo (cfg : ValidateDataConfig) (param_names : List String) (args_len : Nat)
    (pname : String) (expected : List PyAnnot) (arg_value : PyVal) : ErrorInfo :=
  let idx := param_names.findIdx (fun n => n == pname)
  let is_positional := idx < args_len
  ⟨if is_positional then "positional" else "named",
   pname,
   if is_positional then some (idx + 1) else Option.none,
   strJoin " | " (expected.map annotName),
   typeName (pyTypeOf arg_value),
   _create_object_detail arg_value,
   typeSourceOf cfg pname⟩

/-- The per-error block of `_create_optimized_error_message`
(src/todo.py lines 693-701). -/
def formatErrors (i : Nat) : List ErrorInfo → String
  | [] => ""
  | e :: rest =>
    "\n💥 ERROR " ++ toString i ++ ":\n"
      ++ (if e.errKind == "positional" then
            "   Parameter: " ++ quoteStr e.name ++ " (position "
              ++ toString (e.position.getD 0) ++ ")\n"
          else "   Parameter: " ++ quoteStr e.name ++ " (named argument)\n")
      ++ "   ✅ Expected: " ++ e.expected_type ++ " (from " ++ e.type_source ++ ")\n"
      ++ "   ❌ Received: " ++ e.received_type ++ "\n"
      ++ "   📦 Value: " ++ e.object_detail ++ "\n"
      ++ formatErrors (i + 1) rest

/-- `_create_optimized_error_message(errors, file_path, error_line, context)`
(src/todo.py lines 683-703): one aggregated report naming every failing
parameter. -/
def _create_optimized_error_message (errors : List ErrorInfo) (file_path : String)
    (error_line : Nat) (context : String) : String :=
  "\n" ++ eqBar ++ "\n"
    ++ "TYPE VALIDATION ERROR\n"
    ++ eqBar ++ "\n"
    ++ "📁 File: " ++ file_path ++ "\n"
    ++ "📍 Line: " ++ toString error_line ++ "\n"
    ++ "🔧 " ++ context ++ "\n"
    ++ "❌ Errors found: " ++ toString errors.length ++ "\n"
    ++ eqBar ++ "\n"
    ++ formatErrors 1 errors
    ++ "\n" ++ eqBar

/-- Is the value Python `None`? -/
def isNoneVal : PyVal → Bool
  | .none => true
  | _ => false

/-- Is the descriptor the `NoneType` class (`type(None)`)? -/
def isNoneTypeAnnot : PyAnnot → Bool
  | .simple .noneType => true
  | _ => false

/-- The `context` string (src/todo.py lines 492-502): a leading `self`/`cls`
parameter with a positional argument marks a method (the class name taken
from the receiver), asynchronous callables are tagged. -/
def callContext (func : PyFunc) (args : List PyVal) : String :=
  let param_names := func.params.map (fun p => p.name)
  let is_class_method := args.length > 0
    && (param_names.headD "" == "self" || param_names.headD "" == "cls")
  let base :=
    if is_class_method then
      "Method: " ++ typeName (pyTypeOf (args.headD PyVal.none)) ++ "." ++ func.funcName ++ "()"
    else "Function: " ++ func.funcName ++ "()"
  if func.isAsync then base ++ " [async]" else base

/-- The per-parameter validation loop (src/todo.py lines 529-572): walk the
signature in order, skip `self`/`cls`, parameters with no expected set, and
unbound parameters; skip `None` when `NoneType` is among the expected
descriptors; otherwise run the structural validator — an exception it
raises propagates immediately, discarding any failures accumulated so far —
and accumulate an `error_info` for every mismatch. -/
def validationLoop (cfg : ValidateDataConfig) (param_names : List String) (args_len : Nat)
    (ttv : List (String × List PyAnnot)) (bound : List (String × PyVal)) :
    List PyParam → Except PyErr (List ErrorInfo)
  | [] => .ok []
  | p :: ps =>
    if p.name == "self" || p.name == "cls" then
      validationLoop cfg param_names args_len ttv bound ps
    else
      match assocFind ttv p.name with
      | Option.none => validationLoop cfg param_names args_len ttv bound ps
      | some expected =>
        match assocFind bound p.name with
        | Option.none => validationLoop cfg param_names args_len ttv bound ps
        | some arg_value =>
          if isNoneVal arg_value && expected.any isNoneTypeAnnot then
            validationLoop cfg param_names args_len ttv bound ps
          else
            match _validate_complex_types arg_value expected with
            | .error e => .error e
            | .ok true => validationLoop cfg param_names args_len ttv bound ps
            | .ok false =>
              match validationLoop cfg param_names args_len ttv bound ps with
              | .error e => .error e
              | .ok restErrors =>
                .ok (mkErrorInfo cfg param_names args_len p.name expected arg_value :: restErrors)

/-- `_validate_parameters(func, args, kwargs)` (src/todo.py lines 478-576),
with the caller location (`sys._getframe(2)`) passed in explicitly.  In
source order: validate the override keys, build the context, bind the
arguments, build the expected-type table, run the loop, and raise a single
aggregated `ValidationError` if any failures accumulated. -/
def _validate_parameters (cfg : ValidateDataConfig) (func : PyFunc) (args : List PyVal)
    (kwargs : List (String × PyVal)) (file_path : String) (error_line : Nat) :
    Except PyErr Unit :=
  let param_names := func.params.map (fun p => p.name)
  match _validate_override_parameters func.params cfg.types_override func.funcName with
  | .error e => .error e
  | .ok _ =>
    let context := callContext func args
    match sigBindApplyDefaults func.params args kwargs with
    | .error e => .error e
    | .ok bound_args =>
      let types_to_validate := buildTypesToValidate cfg func.params
      match validationLoop cfg param_names args.length types_to_validate bound_args func.params with
      | .error e => .error e
      | .ok errors =>
        if errors.isEmpty then .ok ()
        else .error (.validationError
          (_create_optimized_error_message errors file_path error_line context))

/-- The `RETURN TYPE VALIDATION ERROR` message (src/todo.py lines 596-605). -/
def returnErrMsg (func : PyFunc) (result : PyVal) (expected : PyAnnot)
    (file_path : String) (error_line : Nat) : String :=
  "\n" ++ eqBar ++ "\n"
    ++ "RETURN TYPE VALIDATION ERROR\n"
    ++ eqBar ++ "\n"
    ++ "📁 File: " ++ file_path ++ "\n"
    ++ "📍 Line: " ++ toString error_line ++ "\n"
    ++ "🔧 " ++ (if func.isAsync then "Function: " ++ func.funcName ++ "() [async]"
                else "Function: " ++ func.funcName ++ "()") ++ "\n"
    ++ "✅ Expected type: " ++ annotName expected ++ "\n"
    ++ "❌ Received type: " ++ typeName (pyTypeOf result) ++ "\n"
    ++ "📦 Value: " ++ pyRepr result ++ "\n"
    ++ eqBar

/-- `_validate_return_type(func, result)` (src/todo.py lines 578-606). -/
def _validate_return_type (func : PyFunc) (result : PyVal) (file_path : String)
    (error_line : Nat) : Except PyErr Unit :=
  match func.retAnnot with
  | Option.none => .ok ()
  | some expected =>
    match _validate_complex_types result [expected] with
    | .error e => .error e
    | .ok true => .ok ()
    | .ok false => .error (.validationError (returnErrMsg func result expected file_path error_line))

/-- A wrapped callable.  `validate_data` below shows that decoration merely
captures the configuration and the callable. -/
structure WrappedCallable where
  cfg : ValidateDataConfig
  func : PyFunc

/-- Applying the `validate_data(...)` decorator (src/todo.py lines 456-476):
the decorator only tests `iscoroutinefunction` and returns the wrapper
closure — it performs no validation of any kind at wrap time, so it is a
total function with no error outcome. -/
def validate_data (cfg : ValidateDataConfig) (func : PyFunc) : WrappedCallable :=
  ⟨cfg, func⟩

/-- One invocation of a wrapped callable (the body of `sync_wrapper` /
`async_wrapper`, src/todo.py lines 461-475): validate the parameters, call
the function, validate the result when `validate_return` is set. -/
def callWrapped (w : WrappedCallable) (args : List PyVal) (kwargs : List (String × PyVal))
    (file_path : String) (error_line : Nat) : Except PyErr PyVal :=
  match _validate_parameters w.cfg w.func args kwargs file_path error_line with
  | .error e => .error e
  | .ok _ =>
    match sigBindApplyDefaults w.func.params args kwargs with
    | .error e => .error e
    | .ok bound =>
      let result := w.func.body bound
      if w.cfg.validate_return then
        match _validate_return_type w.func result file_path error_line with
        | .error e => .error e
        | .ok _ => .ok result
      else .ok result

/-! ## Predicates used to state the claims -/

/-- No two pairs in the list have keys equal under Python `==`
(earlier key compared against every later key, the orientation
`dictInsert` tests). -/
def noKeyClash : List (PyVal × PyVal) → Bool
  | [] => true
  | p :: ps => ps.all (fun q => !pyEq p.1 q.1) && noKeyClash ps

/-- Every key in the pair list is hashable. -/
def allKeysHashable (ps : List (PyVal × PyVal)) : Bool :=
  ps.all (fun p => pyHashable p.1)

/-- The shapes `convert(obj, dict)` accepts: a non-empty list or tuple that
either consists entirely of 2-element pairs or has even length. -/
def goodDictSource : PyVal → Bool
  | .list xs => !xs.isEmpty && (xs.all isPair || xs.length % 2 == 0)
  | .tuple xs => !xs.isEmpty && (xs.all isPair || xs.length % 2 == 0)
  | _ => false

/-- `s` occurs as a contiguous substring of `t`. -/
def infixOfStr (s t : String) : Prop := s.data <:+: t.data

/-! ## Fuel irrelevance for `check_typeF` -/

theorem annotSize_pos (a : PyAnnot) : 1 ≤ annotSize a := by
  cases a <;> simp [annotSize]

theorem annotSize_le_of_mem : ∀ (l : List PyAnnot) (a : PyAnnot), a ∈ l → annotSize a ≤ annotSizeList l := by
  intro l
  induction l with
  | nil => intro a ha; cases ha
  | cons x xs ihx =>
    intro a ha
    rcases List.mem_cons.mp ha with h | h
    · subst h; simp [annotSizeList]; omega
    · have := ihx a h; simp [annotSizeList]; omega

theorem convertItemsWith_congr (f g : PyVal → Except PyErr PyVal) (h : ∀ x, f x = g x) :
    ∀ xs, convertItemsWith f xs = convertItemsWith g xs := by
  intro xs
  induction xs with
  | nil => rfl
  | cons x xs ihx => simp [convertItemsWith, h x, ihx]

theorem unionLoopWith_congr (f g : PyAnnot → Except PyErr PyVal) :
    ∀ alts, (∀ a ∈ alts, f a = g a) → unionLoopWith f alts = unionLoopWith g alts := by
  intro alts
  induction alts with
  | nil => intro _; rfl
  | cons a rest ihr =>
    intro h
    have ha : f a = g a := h a (List.mem_cons_self a rest)
    have hrest := ihr (fun b hb => h b (List.mem_cons_of_mem a hb))
    simp [unionLoopWith, ha, hrest]

theorem dictConvWith_congr (ck ck2 cv cv2 : PyVal → Except PyErr PyVal)
    (hk : ∀ x, ck x = ck2 x) (hv : ∀ x, cv x = cv2 x) :
    ∀ ps acc, dictConvWith ck cv acc ps = dictConvWith ck2 cv2 acc ps := by
  intro ps
  induction ps with
  | nil => intro acc; rfl
  | cons p rest ihr =>
    intro acc
    obtain ⟨k, v⟩ := p
    simp [dictConvWith, hk k, hv v]
    cases ck2 k with
    | error e => rfl
    | ok k2 =>
      cases cv2 v with
      | error e => rfl
      | ok v2 =>
        by_cases hh : pyHashable k2 = true <;> simp [hh, ihr]

/-- The result of `check_typeF` does not depend on the fuel, provided the
fuel exceeds the size of the target descriptor. -/
theorem check_typeF_fuel_irrel : ∀ (k : Nat) (t : PyAnnot), annotSize t < k →
    ∀ n m obj ac, annotSize t < n → annotSize t < m →
    check_typeF n obj t ac = check_typeF m obj t ac := by
  intro k
  induction k with
  | zero => intro t ht; omega
  | succ k ih =>
    intro t ht n m obj ac hn hm
    match n, m with
    | n' + 1, m' + 1 =>
      cases t with
      | simple ty => simp [check_typeF]
      | generic o args =>
        have hszt : annotSize (PyAnnot.generic o args) = 1 + annotSizeList args := by
          simp [annotSize]
        cases o with
        | glist =>
          cases args with
          | nil => simp [check_typeF]
          | cons a0 rest =>
            have ha0 : annotSize a0 < annotSize (PyAnnot.generic GOrigin.glist (a0 :: rest)) := by
              simp [annotSize, annotSizeList]; omega
            have hpt : ∀ x, check_typeF n' x a0 true = check_typeF m' x a0 true := by
              intro x
              exact ih a0 (by omega) n' m' x true (by omega) (by omega)
            have hc := convertItemsWith_congr _ _ hpt (coercionItems obj)
            simp [check_typeF, hc]
        | gtuple =>
          cases args with
          | nil => simp [check_typeF]
          | cons a0 rest =>
            have ha0 : annotSize a0 < annotSize (PyAnnot.generic GOrigin.gtuple (a0 :: rest)) := by
              simp [annotSize, annotSizeList]; omega
            have hpt : ∀ x, check_typeF n' x a0 true = check_typeF m' x a0 true := by
              intro x
              exact ih a0 (by omega) n' m' x true (by omega) (by omega)
            have hc := convertItemsWith_congr _ _ hpt (coercionItems obj)
            simp [check_typeF, hc]
        | gset =>
          cases args with
          | nil => simp [check_typeF]
          | cons a0 rest =>
            have ha0 : annotSize a0 < annotSize (PyAnnot.generic GOrigin.gset (a0 :: rest)) := by
              simp [annotSize, annotSizeList]; omega
            have hpt : ∀ x, check_typeF n' x a0 true = check_typeF m' x a0 true := by
              intro x
              exact ih a0 (by omega) n' m' x true (by omega) (by omega)
            have hc := convertItemsWith_congr _ _ hpt (coercionItems obj)
            simp [check_typeF, hc]
        | gdict =>
          match args with
          | [] => simp [check_typeF]
          | [a1] => simp [check_typeF]
          | [kt, vt] =>
            have hkt : annotSize kt < annotSize (PyAnnot.generic GOrigin.gdict [kt, vt]) := by
              simp [annotSize, annotSizeList]; omega
            have hvt : annotSize vt < annotSize (PyAnnot.generic GOrigin.gdict [kt, vt]) := by
              simp [annotSize, annotSizeList]; omega
            have hptk : ∀ x, check_typeF n' x kt true = check_typeF m' x kt true := by
              intro x
              exact ih kt (by omega) n' m' x true (by omega) (by omega)
            have hptv : ∀ x, check_typeF n' x vt true = check_typeF m' x vt true := by
              intro x
              exact ih vt (by omega) n' m' x true (by omega) (by omega)
            have hc := fun ps => dictConvWith_congr _ _ _ _ hptk hptv ps []
            simp [check_typeF, hc]
          | a1 :: a2 :: a3 :: rest => simp [check_typeF]
        | gunion =>
          have hpt : ∀ a ∈ args, check_typeF n' obj a true = check_typeF m' obj a true := by
            intro a hamem
            have hle := annotSize_le_of_mem args a hamem
            exact ih a (by omega) n' m' obj true (by omega) (by omega)
          have hc := unionLoopWith_congr _ _ args hpt
          simp [check_typeF, hc]

/-- `check_type` computes `check_typeF` at any sufficient fuel. -/
theorem check_type_eq_fuel (n : Nat) (obj : PyVal) (t : PyAnnot) (ac : Bool)
    (hn : annotSize t < n) : check_typeF n obj t ac = check_type obj t ac := by
  unfold check_type
  exact check_typeF_fuel_irrel (n + annotSize t + 2) t (by omega) n (annotSize t + 1) obj ac hn (by omega)


/-! ## Helper lemmas -/

theorem dictInsert_fresh (acc : List (PyVal × PyVal)) (k v : PyVal)
    (h : acc.all (fun p => !pyEq p.1 k) = true) :
    dictInsert acc k v = acc ++ [(k, v)] := by
  unfold dictInsert
  have hany : acc.any (fun p => pyEq p.1 k) = false := by
    rw [List.any_eq_false]
    intro p hp
    have := (List.all_eq_true.mp h) p hp
    simpa using this
  simp [hany]

/-- Building a dict from pairs with hashable, pairwise-distinct keys (also
distinct from every key already inserted) appends them in order. -/
theorem dictFromPairs_distinct : ∀ (ps acc : List (PyVal × PyVal)),
    noKeyClash ps = true → allKeysHashable ps = true →
    (∀ p ∈ acc, ∀ q ∈ ps, pyEq p.1 q.1 = false) →
    dictFromPairs acc ps = .ok (acc ++ ps) := by
  intro ps
  induction ps with
  | nil => intro acc _ _ _; simp [dictFromPairs]
  | cons q rest ihr =>
    intro acc hnc hh hfresh
    obtain ⟨k, v⟩ := q
    have hparts := (Bool.and_eq_true _ _).mp hnc
    have hk : pyHashable k = true := by
      have := (List.all_eq_true.mp hh) (k, v) (List.mem_cons_self _ _)
      simpa using this
    have hinsert : dictInsert acc k v = acc ++ [(k, v)] := by
      apply dictInsert_fresh
      rw [List.all_eq_true]
      intro p hp
      have := hfresh p hp (k, v) (List.mem_cons_self _ _)
      simpa using this
    have hrest : dictFromPairs (acc ++ [(k, v)]) rest = .ok ((acc ++ [(k, v)]) ++ rest) := by
      apply ihr _ hparts.2
      · rw [allKeysHashable, List.all_eq_true]
        intro p hp
        exact (List.all_eq_true.mp hh) p (List.mem_cons_of_mem _ hp)
      · intro p hp q2 hq2
        rcases List.mem_append.mp hp with hpa | hpk
        · exact hfresh p hpa q2 (List.mem_cons_of_mem _ hq2)
        · have hpk2 : p = (k, v) := by simpa using hpk
          subst hpk2
          have := (List.all_eq_true.mp hparts.1) q2 hq2
          simpa using this
    simp [dictFromPairs, hk, hinsert, hrest]

/-- `convert(obj, dict)` on a non-empty all-pairs sequence with hashable,
pairwise-distinct keys yields one entry per pair, in order. -/
theorem convert_to_dict_pairs (xs : List PyVal)
    (hne : xs.isEmpty = false) (hall : xs.all isPair = true)
    (hnc : noKeyClash (xs.map toPair) = true)
    (hh : allKeysHashable (xs.map toPair) = true) :
    (convert_to_dict (.list xs) = .ok (xs.map toPair))
    ∧ (convert_to_dict (.tuple xs) = .ok (xs.map toPair)) := by
  have hbuild : dictFromPairs [] (xs.map toPair) = .ok (xs.map toPair) := by
    have := dictFromPairs_distinct (xs.map toPair) [] hnc hh (by intro p hp; cases hp)
    simpa using this
  constructor <;> simp [convert_to_dict, hne, hall, hbuild]

/-- The union loop returns `none` when every alternative fails with
`TypeConversionError`. -/
theorem unionLoop_all_tce (check : PyAnnot → Except PyErr PyVal) :
    ∀ alts, (∀ a ∈ alts, ∃ m, check a = .error (.typeConversionError m)) →
    unionLoopWith check alts = .ok Option.none := by
  intro alts
  induction alts with
  | nil => intro _; rfl
  | cons a rest ihr =>
    intro h
    obtain ⟨m, hm⟩ := h a (List.mem_cons_self _ _)
    have := ihr (fun b hb => h b (List.mem_cons_of_mem _ hb))
    simp [unionLoopWith, hm, this]

/-- The union loop returns the first success when every earlier alternative
fails with `TypeConversionError`. -/
theorem unionLoop_first_success (check : PyAnnot → Except PyErr PyVal) :
    ∀ (pre : List PyAnnot) (a : PyAnnot) (post : List PyAnnot) (w : PyVal),
    (∀ b ∈ pre, ∃ m, check b = .error (.typeConversionError m)) →
    check a = .ok w →
    unionLoopWith check (pre ++ a :: post) = .ok (some w) := by
  intro pre
  induction pre with
  | nil => intro a post w _ ha; simp [unionLoopWith, ha]
  | cons b pre2 ihp =>
    intro a post w h ha
    obtain ⟨m, hm⟩ := h b (List.mem_cons_self _ _)
    have := ihp a post w (fun c hc => h c (List.mem_cons_of_mem _ hc)) ha
    simp [unionLoopWith, hm, this]

theorem infix_extend_left (pre s t : String) (h : infixOfStr s t) :
    infixOfStr s (pre ++ t) := by
  obtain ⟨u, v2, huv⟩ := h
  exact ⟨pre.data ++ u, v2, by rw [String.data_append, ← huv]; simp⟩

theorem infix_extend_right (s t suf : String) (h : infixOfStr s t) :
    infixOfStr s (t ++ suf) := by
  obtain ⟨u, v2, huv⟩ := h
  exact ⟨u, v2 ++ suf.data, by rw [String.data_append, ← huv]; simp⟩

theorem infix_of_quoted (s : String) : infixOfStr s (quoteStr s) := by
  refine ⟨sqChar.data, sqChar.data, ?_⟩
  simp [quoteStr, String.data_append]

theorem quotedJoin_infix : ∀ (l : List String) (s : String), s ∈ l →
    infixOfStr s (quotedJoin l) := by
  intro l
  induction l with
  | nil => intro s hs; cases hs
  | cons x rest ihr =>
    intro s hs
    rcases List.mem_cons.mp hs with h | h
    · subst h
      cases rest with
      | nil => exact infix_of_quoted s
      | cons r rs =>
        show infixOfStr s (quoteStr s ++ ", " ++ quotedJoin (r :: rs))
        exact infix_extend_right _ _ _ (infix_extend_right _ _ _ (infix_of_quoted s))
    · cases rest with
      | nil => cases h
      | cons r rs =>
        show infixOfStr s (quoteStr x ++ ", " ++ quotedJoin (r :: rs))
        exact infix_extend_left _ _ _ (ihr s h)

/-- Every named alternative occurs inside the union failure message. -/
theorem unionFailMsg_names (obj : PyVal) (alts : List PyAnnot) (a : PyAnnot)
    (ha : a ∈ alts) : infixOfStr (annotName a) (unionFailMsg obj alts) := by
  have h1 : infixOfStr (annotName a) (quotedJoin (alts.map annotName)) :=
    quotedJoin_infix _ _ (List.mem_map_of_mem annotName ha)
  have h2 : infixOfStr (annotName a) (pyStrListRepr (alts.map annotName)) := by
    unfold pyStrListRepr
    exact infix_extend_right _ _ _ (infix_extend_left _ _ _ h1)
  exact infix_extend_left _ _ _ h2

theorem mem_dedupStr : ∀ (l : List String) (k : String), k ∈ l → k ∈ dedupStr l := by
  intro l
  induction l with
  | nil => intro k hk; cases hk
  | cons x xs ihx =>
    intro k hk
    rcases List.mem_cons.mp hk with h | h
    · subst h
      by_cases hc : k ∈ dedupStr xs <;> simp [dedupStr, hc]
    · have hin := ihx k h
      by_cases hc : x ∈ dedupStr xs <;> simp [dedupStr, hc, hin]

/-- Unfolding `check_typeF` at a tuple generic target (one step of the
definition, proved by reduction). -/
theorem check_typeF_gtuple_step (n : Nat) (obj : PyVal) (a0 : PyAnnot) (rest : List PyAnnot) :
    check_typeF (n + 1) obj (.generic .gtuple (a0 :: rest)) true
    = (match convertItemsWith (fun item => check_typeF n item a0 true) (coercionItems obj) with
      | .ok ys => .ok (.tuple ys)
      | .error e => .error e) := rfl

/-- Unfolding `check_typeF` at a union target (one step of the definition,
proved by reduction). -/
theorem check_typeF_gunion_step (n : Nat) (obj : PyVal) (alts : List PyAnnot) :
    check_typeF (n + 1) obj (.generic .gunion alts) true
    = (match unionLoopWith (fun alt => check_typeF n obj alt true) alts with
      | .ok (some v) => .ok v
      | .ok Option.none => .error (.typeConversionError (unionFailMsg obj alts))
      | .error e => .error e) := rfl

/-! ## Claims -/

/-- C9: for every simple-type descriptor `T` and value `v` with `type(v)`
exactly `T`, `coerce(v, T)` returns `v` itself unchanged — the identity
fast path of `check_type` (src/check_type.py line 102).  The result is the
very value `v`, no conversion is attempted (the theorem holds even with
`auto_convert = false`, which rejects everything past the fast path). -/
theorem C9_identity_fast_path (v : PyVal) (t : PyType) (ac : Bool)
    (h : pyTypeOf v = t) : check_type v (.simple t) ac = .ok v := by
  simp [check_type, annotSize, check_typeF, h]

/-- Witness for C9 at a concrete input: an already-`list` value is returned
unchanged, even with `auto_convert = false`. -/
theorem C9_identity_fast_path_witness :
    pyTypeOf (PyVal.list [PyVal.int 1, PyVal.str "a"]) = PyType.list
    ∧ check_type (PyVal.list [PyVal.int 1, PyVal.str "a"]) (.simple .list) false
      = .ok (PyVal.list [PyVal.int 1, PyVal.str "a"]) :=
  ⟨rfl, C9_identity_fast_path _ _ _ rfl⟩

/-- C10: coercing the empty list or the empty tuple to a mapping target
always fails with an error instead of producing an empty mapping: the guard
`isinstance(obj, (list, tuple)) and obj` (src/check_type.py line 20) is
falsy for the empty sequence, so `convert` raises — wrapped into
`TypeConversionError` on the `Simple(dict)` path, escaping as a raw
`ValueError` on every `MappingOf` path (any argument list). -/
theorem C10_empty_to_mapping_fails :
    (check_type (PyVal.list []) (.simple .dict) true
      = .error (.typeConversionError (simpleConvFailMsg (PyVal.list []) .dict
          (convertDictFailMsg (PyVal.list [])))))
    ∧ (check_type (PyVal.tuple []) (.simple .dict) true
      = .error (.typeConversionError (simpleConvFailMsg (PyVal.tuple []) .dict
          (convertDictFailMsg (PyVal.tuple [])))))
    ∧ (∀ args : List PyAnnot, check_type (PyVal.list []) (.generic .gdict args) true
      = .error (.valueError (convertDictFailMsg (PyVal.list []))))
    ∧ (∀ args : List PyAnnot, check_type (PyVal.tuple []) (.generic .gdict args) true
      = .error (.valueError (convertDictFailMsg (PyVal.tuple [])))) := by
  refine ⟨rfl, rfl, ?_, ?_⟩ <;>
    · intro args
      simp [check_type, check_typeF, convert_to_dict]

/-- C1 counterexample: two 2-element pairs with equal keys collapse into a
single mapping entry (`dict` deduplicates keys, the last value winning), so
coercion does not produce "one mapping entry per pair" for every sequence
of pairs: here two pairs yield one entry, not two. -/
theorem C1_counterexample :
    check_type (PyVal.list [PyVal.list [PyVal.int 1, PyVal.int 2],
        PyVal.list [PyVal.int 1, PyVal.int 3]]) (.simple .dict) true
      = .ok (PyVal.dict [(PyVal.int 1, PyVal.int 3)])
    ∧ check_type (PyVal.list [PyVal.list [PyVal.int 1, PyVal.int 2],
        PyVal.list [PyVal.int 1, PyVal.int 3]]) (.simple .dict) true
      ≠ .ok (PyVal.dict [(PyVal.int 1, PyVal.int 2), (PyVal.int 1, PyVal.int 3)]) := by
  refine ⟨rfl, ?_⟩
  intro h
  rw [show check_type (PyVal.list [PyVal.list [PyVal.int 1, PyVal.int 2],
      PyVal.list [PyVal.int 1, PyVal.int 3]]) (.simple .dict) true
      = .ok (PyVal.dict [(PyVal.int 1, PyVal.int 3)]) from rfl] at h
  simp at h

/-- C1 amended: for every non-empty list or tuple consisting entirely of
2-element pairs whose keys are hashable and pairwise distinct under Python
`==`, coercion to `dict` (`Simple(dict)` or bare `MappingOf`) produces one
mapping entry per pair, in order; the pairs-of-two rule applies to every
such sequence — including those of even length, which the alternating rule
would split differently — because it is tested first (src/check_type.py
line 21 before line 23).  Pairs with duplicate keys instead collapse (last
value wins at the first occurrence position), which is what the
counterexample exhibits. -/
theorem C1_amended (xs : List PyVal)
    (hne : xs.isEmpty = false) (hall : xs.all isPair = true)
    (hnc : noKeyClash (xs.map toPair) = true)
    (hh : allKeysHashable (xs.map toPair) = true) :
    (check_type (.list xs) (.simple .dict) true = .ok (.dict (xs.map toPair)))
    ∧ (check_type (.tuple xs) (.simple .dict) true = .ok (.dict (xs.map toPair)))
    ∧ (check_type (.list xs) (.generic .gdict []) true = .ok (.dict (xs.map toPair)))
    ∧ (check_type (.tuple xs) (.generic .gdict []) true = .ok (.dict (xs.map toPair))) := by
  obtain ⟨hcl, hct⟩ := convert_to_dict_pairs xs hne hall hnc hh
  refine ⟨?_, ?_, ?_, ?_⟩ <;>
    simp [check_type, annotSize, annotSizeList, check_typeF, _convert_simple_type,
      _ULTRA_CONVERSION_CACHE, hcl, hct, isCaughtByVTA, pyTypeOf, Except.map]

/-- Witness for C1 amended: four 2-element pairs (an even-length sequence,
so both rules would apply) coerce to four entries in order — not to an
8-element alternating reading. -/
theorem C1_amended_witness :
    check_type (PyVal.list [PyVal.list [PyVal.int 1, PyVal.str "a"],
        PyVal.list [PyVal.int 2, PyVal.str "b"],
        PyVal.list [PyVal.int 3, PyVal.str "c"],
        PyVal.list [PyVal.int 4, PyVal.str "d"]]) (.simple .dict) true
      = .ok (PyVal.dict [(PyVal.int 1, PyVal.str "a"), (PyVal.int 2, PyVal.str "b"),
          (PyVal.int 3, PyVal.str "c"), (PyVal.int 4, PyVal.str "d")]) :=
  (C1_amended _ (by decide) (by decide) (by decide) (by decide)).1

/-- C4 counterexample: coercing a 3-element list to `TupleOf(int, str)`
does not raise for the arity mismatch (3 against 2); the branch at
src/check_type.py lines 41-48 performs no length check and coerces every
element against `args[0]` alone, so the third element comes back and the
second is converted by `int`, not `str`. -/
theorem C4_counterexample :
    check_type (PyVal.list [PyVal.int 1, PyVal.str "2", PyVal.int 3])
        (.generic .gtuple [.simple .int, .simple .str]) true
      = .ok (PyVal.tuple [PyVal.int 1, PyVal.int 2, PyVal.int 3])
    ∧ errClass (check_type (PyVal.list [PyVal.int 1, PyVal.str "2", PyVal.int 3])
        (.generic .gtuple [.simple .int, .simple .str]) true)
      ≠ "TypeConversionError" := by
  exact ⟨rfl, by decide⟩

/-- C4 amended: coercion to `TupleOf(T1..Tn)` performs no arity check at
all and ignores every type argument after the first: whenever coercing each
element of the (normalized) source against `T1` succeeds with results `ys`,
the overall result is the tuple of `ys` — whatever the length of the source
and whatever descriptors follow `T1`. -/
theorem C4_amended (obj : PyVal) (a0 : PyAnnot) (rest : List PyAnnot) (ys : List PyVal)
    (h : convertItemsWith (fun item => check_type item a0 true) (coercionItems obj) = .ok ys) :
    check_type obj (.generic .gtuple (a0 :: rest)) true = .ok (.tuple ys) := by
  have hsz : annotSize a0 < annotSize (PyAnnot.generic GOrigin.gtuple (a0 :: rest)) := by
    simp [annotSize, annotSizeList]; omega
  have hpt : ∀ x, check_typeF (annotSize (PyAnnot.generic GOrigin.gtuple (a0 :: rest))) x a0 true
      = check_type x a0 true := by
    intro x
    exact check_type_eq_fuel _ x a0 true hsz
  have hc := convertItemsWith_congr _ _ hpt (coercionItems obj)
  unfold check_type
  rw [check_typeF_gtuple_step, hc, h]

/-- Witness for C4 amended: a 3-element source against the 2-descriptor
tuple type; every element is coerced by `int` (including the string and the
bool) and no error is raised. -/
theorem C4_amended_witness :
    convertItemsWith (fun item => check_type item (.simple .int) true)
        (coercionItems (PyVal.list [PyVal.int 1, PyVal.str "2", PyVal.bool true]))
      = .ok [PyVal.int 1, PyVal.int 2, PyVal.int 1]
    ∧ check_type (PyVal.list [PyVal.int 1, PyVal.str "2", PyVal.bool true])
        (.generic .gtuple [.simple .int, .simple .str]) true
      = .ok (.tuple [PyVal.int 1, PyVal.int 2, PyVal.int 1]) :=
  ⟨rfl, C4_amended _ _ [.simple .str] _ rfl⟩

theorem convert_seq_bad (xs : List PyVal)
    (hxs : (!xs.isEmpty && (xs.all isPair || xs.length % 2 == 0)) = false) :
    (convert_to_dict (.list xs) = .error (.valueError (convertDictFailMsg (.list xs))))
    ∧ (convert_to_dict (.tuple xs) = .error (.valueError (convertDictFailMsg (.tuple xs)))) := by
  by_cases he : xs.isEmpty = true
  · constructor <;> simp [convert_to_dict, he]
  · have he2 : xs.isEmpty = false := by revert he; cases xs.isEmpty <;> simp
    have h4 : (xs.all isPair || (xs.length % 2 == 0)) = false := by
      rw [he2] at hxs; simpa using hxs
    have h5 : xs.all isPair = false ∧ (xs.length % 2 == 0) = false := by
      constructor <;> revert h4 <;> cases hb : xs.all isPair
        <;> cases hv : (xs.length % 2 == 0) <;> simp
    constructor <;> simp [convert_to_dict, he2, h5.1, h5.2]

/-- `convert(obj, dict)` raises its `ValueError` exactly on the bad
shapes. -/
theorem convert_to_dict_bad (obj : PyVal) (h1 : pyTypeOf obj ≠ PyType.dict)
    (h2 : goodDictSource obj = false) :
    convert_to_dict obj = .error (.valueError (convertDictFailMsg obj)) := by
  cases obj with
  | list xs => exact (convert_seq_bad xs h2).1
  | tuple xs => exact (convert_seq_bad xs h2).2
  | dict ps => exact absurd rfl h1
  | int n => rfl
  | bool b => rfl
  | str s => rfl
  | none => rfl
  | set xs => rfl

/-- C8 counterexample: a source that is neither pairs-of-two nor of even
length (`[7, 8, 9]` has odd length 3) makes coercion to `MappingOf`
(`dict[str, int]`) fail with a raw `ValueError` — not a
`TypeConversionError`: the call `convert(obj, dict)` at src/check_type.py
line 51 is not wrapped in any handler.  The `Simple(dict)` route, by
contrast, does wrap it. -/
theorem C8_counterexample :
    check_type (PyVal.list [PyVal.int 7, PyVal.int 8, PyVal.int 9])
        (.generic .gdict [.simple .str, .simple .int]) true
      = .error (.valueError (convertDictFailMsg (PyVal.list [PyVal.int 7, PyVal.int 8, PyVal.int 9])))
    ∧ errClass (check_type (PyVal.list [PyVal.int 7, PyVal.int 8, PyVal.int 9])
        (.generic .gdict [.simple .str, .simple .int]) true) = "ValueError"
    ∧ errClass (check_type (PyVal.list [PyVal.int 7, PyVal.int 8, PyVal.int 9])
        (.simple .dict) true) = "TypeConversionError" :=
  ⟨rfl, rfl, rfl⟩

/-- C8 amended: for every non-dict source of bad shape (neither a non-empty
all-pairs sequence nor a non-empty even-length sequence), coercion to
`Simple(dict)` raises `ConversionError` (the cache converter is wrapped at
src/check_type.py lines 77-80), while coercion to any `MappingOf`
descriptor lets the underlying `ValueError` of `convert` escape unwrapped
(line 51 has no handler). -/
theorem C8_amended (obj : PyVal) (h1 : pyTypeOf obj ≠ PyType.dict)
    (h2 : goodDictSource obj = false) :
    (check_type obj (.simple .dict) true
      = .error (.typeConversionError (simpleConvFailMsg obj .dict (convertDictFailMsg obj))))
    ∧ (∀ args : List PyAnnot, check_type obj (.generic .gdict args) true
      = .error (.valueError (convertDictFailMsg obj))) := by
  have hcv := convert_to_dict_bad obj h1 h2
  constructor
  · simp [check_type, annotSize, check_typeF, h1, _convert_simple_type,
      _ULTRA_CONVERSION_CACHE, hcv, isCaughtByVTA, Except.map, errMessage]
  · intro args
    cases obj <;> simp_all [check_type, check_typeF, pyTypeOf]

/-- Witness for C8 amended at the concrete bad shape `[7, 8]`... -/
theorem C8_amended_witness :
    pyTypeOf (PyVal.str "xy") ≠ PyType.dict
    ∧ goodDictSource (PyVal.str "xy") = false
    ∧ check_type (PyVal.str "xy") (.simple .dict) true
      = .error (.typeConversionError (simpleConvFailMsg (PyVal.str "xy") .dict
          (convertDictFailMsg (PyVal.str "xy"))))
    ∧ check_type (PyVal.str "xy") (.generic .gdict [.simple .str, .simple .int]) true
      = .error (.valueError (convertDictFailMsg (PyVal.str "xy"))) :=
  ⟨by decide, by decide, (C8_amended _ (by decide) (by decide)).1,
   (C8_amended _ (by decide) (by decide)).2 [.simple .str, .simple .int]⟩

/-- C3 counterexample: the value `[1, 2, 3]` is coercible to the second
alternative of `Union[dict[str, int], list]` (coercion to `list` succeeds),
yet coercing against the union raises a raw `ValueError`: the first
alternative fails with the unwrapped `ValueError` escaping
`convert(obj, dict)`, and the union loop at src/check_type.py lines 58-62
catches only `TypeConversionError`, so the error propagates instead of the
next alternative being tried (and no `ConversionError` naming the
alternatives is ever produced). -/
theorem C3_counterexample :
    check_type (PyVal.list [PyVal.int 1, PyVal.int 2, PyVal.int 3])
        (.generic .gunion [.generic .gdict [.simple .str, .simple .int], .simple .list]) true
      = .error (.valueError (convertDictFailMsg (PyVal.list [PyVal.int 1, PyVal.int 2, PyVal.int 3])))
    ∧ check_type (PyVal.list [PyVal.int 1, PyVal.int 2, PyVal.int 3]) (.simple .list) true
      = .ok (PyVal.list [PyVal.int 1, PyVal.int 2, PyVal.int 3])
    ∧ errClass (check_type (PyVal.list [PyVal.int 1, PyVal.int 2, PyVal.int 3])
        (.generic .gunion [.generic .gdict [.simple .str, .simple .int], .simple .list]) true)
      ≠ "TypeConversionError" :=
  ⟨rfl, rfl, by decide⟩

/-- C3 amended: union coercion tries the alternatives in declaration order
with only `ConversionError` failures falling through to the next
alternative.  Part one: when every alternative fails with
`ConversionError`, the union raises a `ConversionError` whose message names
every alternative.  Part two: when each alternative before `a` fails with
`ConversionError` and `a` coerces to `w`, the union returns `w` — whatever
comes after `a`.  (A non-`ConversionError` failure, such as the raw
`ValueError` of the mapping path, instead aborts the whole union, as the
counterexample shows.) -/
theorem C3_amended :
    (∀ (obj : PyVal) (alts : List PyAnnot),
      (∀ a ∈ alts, ∃ m, check_type obj a true = .error (.typeConversionError m)) →
      check_type obj (.generic .gunion alts) true
        = .error (.typeConversionError (unionFailMsg obj alts))
      ∧ ∀ a ∈ alts, infixOfStr (annotName a) (unionFailMsg obj alts))
    ∧ (∀ (obj : PyVal) (pre : List PyAnnot) (a : PyAnnot) (post : List PyAnnot) (w : PyVal),
      (∀ b ∈ pre, ∃ m, check_type obj b true = .error (.typeConversionError m)) →
      check_type obj a true = .ok w →
      check_type obj (.generic .gunion (pre ++ a :: post)) true = .ok w) := by
  constructor
  · intro obj alts h
    have hpt : ∀ a ∈ alts, check_typeF (annotSize (PyAnnot.generic GOrigin.gunion alts)) obj a true
        = check_type obj a true := by
      intro a ha
      have := annotSize_le_of_mem alts a ha
      exact check_type_eq_fuel _ obj a true (by simp [annotSize]; omega)
    have hloop : unionLoopWith
        (fun alt => check_typeF (annotSize (PyAnnot.generic GOrigin.gunion alts)) obj alt true) alts
        = .ok Option.none := by
      rw [unionLoopWith_congr _ _ alts hpt]
      exact unionLoop_all_tce _ alts h
    constructor
    · unfold check_type
      rw [check_typeF_gunion_step, hloop]
    · intro a ha
      exact unionFailMsg_names obj alts a ha
  · intro obj pre a post w h ha
    have hpt : ∀ b ∈ pre ++ a :: post,
        check_typeF (annotSize (PyAnnot.generic GOrigin.gunion (pre ++ a :: post))) obj b true
        = check_type obj b true := by
      intro b hb
      have := annotSize_le_of_mem _ b hb
      exact check_type_eq_fuel _ obj b true (by simp [annotSize]; omega)
    have hloop : unionLoopWith
        (fun alt => check_typeF (annotSize (PyAnnot.generic GOrigin.gunion (pre ++ a :: post))) obj alt true)
        (pre ++ a :: post) = .ok (some w) := by
      rw [unionLoopWith_congr _ _ _ hpt]
      exact unionLoop_first_success _ pre a post w h ha
    unfold check_type
    rw [check_typeF_gunion_step, hloop]

/-- Witness for C3 amended: the string `"zzz"` fails every alternative of
`Union[int]` and the raised `ConversionError` names `int`; the list `[2]`
fails `int` with a `ConversionError` and then coerces to the `str`
alternative, whose result is returned even though the later `bool`
alternative would also succeed. -/
theorem C3_amended_witness :
    (check_type (PyVal.str "zzz") (.generic .gunion [.simple .int]) true
      = .error (.typeConversionError (unionFailMsg (PyVal.str "zzz") [.simple .int]))
     ∧ infixOfStr (annotName (.simple .int)) (unionFailMsg (PyVal.str "zzz") [.simple .int]))
    ∧ check_type (PyVal.list [PyVal.int 2])
        (.generic .gunion [.simple .int, .simple .str, .simple .bool]) true
      = .ok (PyVal.str "[2]") := by
  have hfail : ∀ a ∈ [PyAnnot.simple PyType.int],
      ∃ m, check_type (PyVal.str "zzz") a true = .error (.typeConversionError m) := by
    intro a ha
    rw [List.mem_singleton] at ha
    subst ha
    exact ⟨_, rfl⟩
  have hfail2 : ∀ b ∈ [PyAnnot.simple PyType.int],
      ∃ m, check_type (PyVal.list [PyVal.int 2]) b true = .error (.typeConversionError m) := by
    intro b hb
    rw [List.mem_singleton] at hb
    subst hb
    exact ⟨_, rfl⟩
  refine ⟨⟨(C3_amended.1 _ _ hfail).1, (C3_amended.1 _ _ hfail).2 _ (by simp)⟩, ?_⟩
  exact C3_amended.2 (PyVal.list [PyVal.int 2]) [.simple .int] (.simple .str) [.simple .bool]
    (PyVal.str "[2]") hfail2 rfl

/-- C5 counterexample: `True` is an instance of the proper subclass `bool`
of `int` — its exact type is not `int` — yet the structural validator
accepts it against `Simple(int)`: the check at src/todo.py line 710 is
`isinstance(arg_value, expected_type)`, not an exact nominal-type test. -/
theorem C5_counterexample :
    _validate_complex_types (PyVal.bool true) [.simple .int] = .ok true
    ∧ pyTypeOf (PyVal.bool true) ≠ PyType.int :=
  ⟨rfl, by decide⟩

/-- C5 amended: against a `Simple(T)` descriptor the structural validator
is exactly an `isinstance` check — accepting both values whose type is
exactly `T` and values of a proper subclass of `T` (in the modelled
universe, `bool` values against `int`).  It is therefore not stricter than
the coercion fast path on the nominal type. -/
theorem C5_amended (v : PyVal) (t : PyType) :
    _validate_complex_types v [.simple t] = .ok (pyIsinstance v t)
    ∧ (pyIsinstance v t = true ↔
        (pyTypeOf v = t ∨ (pyTypeOf v = PyType.bool ∧ t = PyType.int))) := by
  constructor
  · cases h : pyIsinstance v t <;> simp [_validate_complex_types, h]
  · simp [pyIsinstance]

/-- C7 (code bug, failing input): `matches(5, (Union[int, str],))` — the
value `5` matches the `int` alternative, and the spec says `matches` never
raises, yet `_validate_complex_types` raises `TypeError`: the guard
`isinstance(arg_value, origin)` at src/todo.py line 713 is evaluated with
`origin = typing.Union`, which CPython rejects, so the dedicated
`origin is Union` branch at line 730 can never run. -/
theorem C7_code_evaluation :
    _validate_complex_types (PyVal.int 5) [.generic .gunion [.simple .int, .simple .str]]
      = .error (.typeError "typing.Union cannot be used with isinstance()")
    ∧ _validate_complex_types (PyVal.int 5) [.simple .int] = .ok true :=
  ⟨rfl, rfl⟩

/-- C6 (code bug, failing input): calling the wrapped
`f(a: int, b: int, c)` with override `c = Union[int, str]` as
`f("x", "y", [1])`.  Parameters `a` and `b` both fail validation (third and
fourth conjuncts), yet no aggregated diagnostic listing them is raised: the
union descriptor for `c` makes the structural validator raise a bare
`TypeError` mid-loop (first conjunct), discarding the accumulated failures.
Replacing the union override with the tuple form `(int, str)` restores the
intended behaviour — a single aggregated `ValidationError` (second
conjunct). -/
theorem C6_code_evaluation :
    errClass (callWrapped (validate_data ⟨true, true, Option.none,
        [("c", .one (.generic .gunion [.simple .int, .simple .str]))]⟩
        ⟨"f", [⟨"a", some (.simple .int), Option.none⟩, ⟨"b", some (.simple .int), Option.none⟩,
          ⟨"c", Option.none, Option.none⟩], Option.none, false, fun _ => PyVal.none⟩)
        [PyVal.str "x", PyVal.str "y", PyVal.list [PyVal.int 1]] [] "app.py" 7) = "TypeError"
    ∧ errClass (callWrapped (validate_data ⟨true, true, Option.none,
        [("c", .many [.simple .int, .simple .str])]⟩
        ⟨"f", [⟨"a", some (.simple .int), Option.none⟩, ⟨"b", some (.simple .int), Option.none⟩,
          ⟨"c", Option.none, Option.none⟩], Option.none, false, fun _ => PyVal.none⟩)
        [PyVal.str "x", PyVal.str "y", PyVal.list [PyVal.int 1]] [] "app.py" 7) = "ValidationError"
    ∧ _validate_complex_types (PyVal.str "x") [.simple .int] = .ok false
    ∧ _validate_complex_types (PyVal.str "y") [.simple .int] = .ok false :=
  ⟨rfl, rfl, rfl, rfl⟩

/-- C2 counterexample: applying the decorator with the override key `"y"`,
which names no parameter of `f(x: int)`, raises nothing at wrap time
(`validate_data` is a total function: the decorator body only tests
`iscoroutinefunction` and returns the wrapper, src/todo.py lines 456-476);
instead the very first invocation — with a perfectly valid argument —
raises the configuration `ValueError`, because
`_validate_override_parameters` runs inside `_validate_parameters` on every
call (line 489).  Without the bad override the same call succeeds. -/
theorem C2_counterexample :
    errClass (callWrapped (validate_data ⟨true, true, Option.none, [("y", .one (.simple .int))]⟩
        ⟨"f", [⟨"x", some (.simple .int), Option.none⟩], Option.none, false,
          fun bound => (assocFind bound "x").getD PyVal.none⟩)
        [PyVal.int 1] [] "app.py" 10) = "ValueError"
    ∧ callWrapped (validate_data ⟨true, true, Option.none, []⟩
        ⟨"f", [⟨"x", some (.simple .int), Option.none⟩], Option.none, false,
          fun bound => (assocFind bound "x").getD PyVal.none⟩)
        [PyVal.int 1] [] "app.py" 10 = .ok (PyVal.int 1) :=
  ⟨rfl, rfl⟩

/-- C2 amended: an override key that names no real parameter is rejected at
the start of every invocation — before argument binding and before any type
check, for arbitrary arguments — with the configuration `ValueError`; wrap
time itself performs no validation (`validate_data` has no error
outcome). -/
theorem C2_amended (cfg : ValidateDataConfig) (func : PyFunc) (args : List PyVal)
    (kwargs : List (String × PyVal)) (fp : String) (ln : Nat) (k : String)
    (hk : k ∈ cfg.types_override.map Prod.fst)
    (hbad : ((func.params.map (fun p => p.name)).filter
      (fun n => n != "self" && n != "cls")).contains k = false) :
    callWrapped (validate_data cfg func) args kwargs fp ln
      = .error (.valueError (overrideMsgOf func cfg)) := by
  have hov : _validate_override_parameters func.params cfg.types_override func.funcName
      = .error (.valueError (overrideMsgOf func cfg)) := by
    unfold _validate_override_parameters overrideMsgOf
    have hkmem : k ∈ (dedupStr (cfg.types_override.map Prod.fst)).filter
        (fun j => !((func.params.map (fun p => p.name)).filter
          (fun n => n != "self" && n != "cls")).contains j) := by
      rw [List.mem_filter]
      refine ⟨mem_dedupStr _ k hk, ?_⟩
      show (!((func.params.map (fun p => p.name)).filter
        (fun n => n != "self" && n != "cls")).contains k) = true
      rw [hbad]; rfl
    have hne := List.ne_nil_of_mem hkmem
    have hie : ((dedupStr (cfg.types_override.map Prod.fst)).filter
        (fun j => !((func.params.map (fun p => p.name)).filter
          (fun n => n != "self" && n != "cls")).contains j)).isEmpty = false := by
      revert hne
      cases (dedupStr (cfg.types_override.map Prod.fst)).filter
        (fun j => !((func.params.map (fun p => p.name)).filter
          (fun n => n != "self" && n != "cls")).contains j) <;> simp
    simp only [hie]
    simp
  unfold callWrapped validate_data _validate_parameters
  rw [hov]

/-- Witness for C2 amended: override key `"z"` against `g(a)`; the call —
here even one whose positional arguments could not be bound — returns the
configuration `ValueError`. -/
theorem C2_amended_witness :
    "z" ∈ ([("z", TypesSpec.one (.simple .str))].map Prod.fst)
    ∧ callWrapped (validate_data ⟨false, false, Option.none, [("z", .one (.simple .str))]⟩
        ⟨"g", [⟨"a", Option.none, Option.none⟩], Option.none, false, fun _ => PyVal.none⟩)
        [PyVal.int 1, PyVal.int 2, PyVal.int 3] [] "app.py" 3
      = .error (.valueError (overrideMsgOf
        ⟨"g", [⟨"a", Option.none, Option.none⟩], Option.none, false, fun _ => PyVal.none⟩
        ⟨false, false, Option.none, [("z", .one (.simple .str))]⟩)) :=
  ⟨by simp, C2_amended _ _ _ _ _ _ "z" (by simp) (by decide)⟩
